import Mathlib

/-!
Shallow embedding of the eVS2ETER aggregation-and-disclosure-control
pipeline (`eVS2ETER.py`): reference tables, the year/level selector,
the per-row anonymiser, the characteristic and totals breakdowns and the
per-year aggregator, together with proofs of the specified properties.

Modelling conventions:
* a pandas cell is `Cell`: an integer count, a string marker, or NaN;
* a row is an association list of column name to cell (a pandas Series
  with its index);
* code that can raise (dictionary KeyError, a TypeError from comparing a
  string with an integer) returns `Except String`;
* the nullable Int64 headcount `ST` is `Option Int`; pandas `sum()`
  skips nulls, embedded as `Option.getD 0`;
* a format template such as the Python string with a sep placeholder
  between a fixed head and tail is `Template`, with
  `Template.fmt t sep = t.pre ++ sep ++ t.post`.
-/

namespace EVS

/-- A pandas cell: an integer count, a string marker (masked cell,
flag value), or NaN (introduced by column-wise concat alignment). -/
inductive Cell where
  | num (n : Int)
  | str (s : String)
  | nan
deriving DecidableEq, Repr

/-- A row: a pandas Series, as an association list of column name and cell. -/
abbrev Row := List (String × Cell)

/-- Lookup of a cell by column name (first matching label). -/
def getCell (row : Row) (k : String) : Option Cell :=
  (row.find? (fun kc => kc.1 == k)).map (fun kc => kc.2)

/-- Label-based assignment: set every cell whose label equals `k` to `v`. -/
def setCell (row : Row) (k : String) (v : Cell) : Row :=
  row.map (fun kc => if kc.1 == k then (kc.1, v) else kc)

/-- A column-name format template with a separator placeholder between a
fixed head and a fixed tail. -/
structure Template where
  pre : String
  post : String
deriving DecidableEq, Repr

/-- Substituting a separator into the placeholder position. -/
def Template.fmt (t : Template) (sep : String) : String :=
  t.pre ++ sep ++ t.post

/-- The raw value stored in the ISCED level column: the configured
selector values mix integers and strings. -/
inductive LevelVal where
  | int (n : Int)
  | str (s : String)
deriving DecidableEq, Repr

/-- The source definition `mapping`: per characteristic, the ordered raw-label-to-code table. -/
def mapping : List (String × List (String × String)) :=
  [ ("SPOL",
      [ ("men", "MEN"), ("women", "WOMEN") ]),
    ("REZIDENT",
      [ ("resident", "RES"), ("mobile", "MOB") ]),
    ("KLS_P16_OPIS_ANGL_1R",
      [ ("Education", "FOE01"),
        ("Arts and humanities", "FOE02"),
        ("Social sciences, journalism and information", "FOE03"),
        ("Business, administration and law", "FOE04"),
        ("Natural sciences, mathematics and statistics", "FOE05"),
        ("Information and Communication Technologies (ICTs)", "FOE06"),
        ("Engineering, manufacturing and construction", "FOE07"),
        ("Agriculture, forestry, fisheries and veterinary", "FOE08"),
        ("Health and welfare", "FOE09"),
        ("Services", "FOE10") ]),
    ("NACIN_STUDIJA",
      [ ("PART-TIME", "PARTTIME"), ("FULL-TIME", "FULLTIME") ]),
    ("STAROST_OBMOCJA",
      [ ("under 20 years old", "BELOW20"),
        ("between 20 and 21 years old", "20TO21"),
        ("between 22 and 24 years old", "22TO24"),
        ("between 25 and 29 years old", "25TO29"),
        ("over 29 years old", "OVER29") ]) ]

/-- The source definition `flag_suffix`: per characteristic, the short tag used in the flag
column name. -/
def flag_suffix : List (String × String) :=
  [ ("SPOL", "GEN"),
    ("REZIDENT", "MOB"),
    ("KLS_P16_OPIS_ANGL_1R", "FOE"),
    ("NACIN_STUDIJA", "PARTFULL"),
    ("STAROST_OBMOCJA", "AGE") ]

/-- The source definition `map_levels`: per level name, the raw selector value stored in the
ISCED level column. -/
def map_levels : List (String × LevelVal) :=
  [ ("ISCED6", LevelVal.int 6),
    ("ISCED7", LevelVal.str "7 - master"),
    ("ISCED7LONG", LevelVal.str "7 - long degree"),
    ("ISCED8", LevelVal.int 8) ]

/-- The per-category, per-level column-name templates.  The Python source
stores format strings with a sep placeholder; here each is a `Template`. -/
def prefix_table : List (String × List (String × Template)) :=
  [ ("STUD",
      [ ("ISCED6", ⟨"STUD", ""⟩),
        ("ISCED7", ⟨"STUD", ""⟩),
        ("ISCED7LONG", ⟨"STUD", ""⟩),
        ("ISCED8", ⟨"RES", "STUD"⟩) ]),
    ("GRAD",
      [ ("ISCED6", ⟨"GRAD", ""⟩),
        ("ISCED7", ⟨"GRAD", ""⟩),
        ("ISCED7LONG", ⟨"GRAD", ""⟩),
        ("ISCED8", ⟨"RES", "GRAD"⟩) ]) ]

/-- The fixed supported academic years (the categorical dtype of the
year column in `eVS_kwargs`). -/
def supported_years : List Int :=
  [2017, 2018, 2019, 2020, 2021, 2022, 2023]

/-- The disclosure threshold. -/
def anonymisation_threshold : Int := 5

/-- Dictionary lookup in `mapping` (None when the key is absent). -/
def mapping_lookup (char : String) : Option (List (String × String)) :=
  (mapping.find? (fun p => p.1 == char)).map (fun p => p.2)

/-- Dictionary lookup in `flag_suffix`. -/
def suffix_lookup (char : String) : Option String :=
  (flag_suffix.find? (fun p => p.1 == char)).map (fun p => p.2)

/-- Dictionary lookup `map_levels.get(level)` (None when absent). -/
def map_levels_get (level : String) : Option LevelVal :=
  (map_levels.find? (fun p => p.1 == level)).map (fun p => p.2)

/-- Nested dictionary lookup in the per-category prefix tables. -/
def prefix_lookup (category level : String) : Option Template :=
  match prefix_table.find? (fun p => p.1 == category) with
  | none => none
  | some (_, tbl) => (tbl.find? (fun p => p.1 == level)).map (fun p => p.2)

/-- One raw input record (one row of the loaded eVS sheet).  The
characteristic columns are a single function from column name to the
categorical label; the headcount `ST` is nullable. -/
structure Record where
  studijsko_leto : Int
  sifra_zavoda : Int
  isced_vrednost : LevelVal
  charVal : String → String
  st : Option Int

/-- A loaded data frame: its column schema and its records. -/
structure DataFrame where
  columns : List String
  records : List Record

/-- The source definition `f_year_level`: select rows for the relevant academic year and ISCED
level.  An unknown level makes `map_levels_get` return none, which no
row's level value equals. -/
def f_year_level (df : DataFrame) (year : Int) (level : String) : DataFrame :=
  { columns := df.columns,
    records := df.records.filter (fun r =>
      r.studijsko_leto == year
        && some r.isced_vrednost == map_levels_get level) }

/-- Comparing one cell against the threshold, as Python does: a numeric
cell compares normally, NaN compares false, and an ordering comparison
between a string and an integer raises a TypeError. -/
def cellLE (c : Cell) (t : Int) : Except String Bool :=
  match c with
  | Cell.num n => Except.ok (decide (n ≤ t))
  | Cell.str _ => Except.error "TypeError"
  | Cell.nan => Except.ok false

/-- Monadic map over a list in `Except`, stopping at the first error. -/
def mapExcept (f : α → Except ε β) : List α → Except ε (List β)
  | [] => Except.ok []
  | a :: l =>
    match f a with
    | Except.error e => Except.error e
    | Except.ok b =>
      match mapExcept f l with
      | Except.error e => Except.error e
      | Except.ok bs => Except.ok (b :: bs)

/-- The source definition `anonymise_row`: if any non-flag cell is at most the threshold, every
cell is replaced by the masked marker and the flag cell set to the
confidential marker; otherwise the row is returned unchanged.  The
threshold comparison is evaluated strictly on every non-flag cell, so a
string cell raises. -/
def anonymise_row (row : Row) (flags : String) : Except String Row :=
  match mapExcept (fun kc => cellLE kc.2 anonymisation_threshold)
      (row.filter (fun kc => kc.1 != flags)) with
  | Except.error e => Except.error e
  | Except.ok comps =>
    if comps.any id then
      Except.ok (setCell (row.map (fun kc => (kc.1, Cell.str "m"))) flags
        (Cell.str "c"))
    else
      Except.ok row

/-- Insertion into a sorted list of institution codes. -/
def insertSorted (x : Int) : List Int → List Int
  | [] => [x]
  | y :: ys => if x ≤ y then x :: y :: ys else y :: insertSorted x ys

/-- Sorting institution codes ascending (the group-by key order). -/
def sortInts (l : List Int) : List Int := l.foldr insertSorted []

/-- The institutions observed in a record subset, deduplicated and
sorted: the index of a grouped table. -/
def institutions (recs : List Record) : List Int :=
  sortInts ((recs.map (fun r => r.sifra_zavoda)).eraseDups)

/-- The summed headcount for one institution and one raw characteristic
label: group-by (institution, characteristic) and sum, nulls skipped. -/
def breakdown_sum (recs : List Record) (char : String) (inst : Int)
    (label : String) : Int :=
  ((recs.filter (fun r =>
      r.sifra_zavoda == inst && r.charVal char == label)).map
    (fun r => r.st.getD 0)).sum

/-- The summed headcount for one institution over the whole subset:
group-by institution only, nulls skipped. -/
def total_sum (recs : List Record) (inst : Int) : Int :=
  ((recs.filter (fun r => r.sifra_zavoda == inst)).map
    (fun r => r.st.getD 0)).sum

/-- One institution's row of the pivoted, renamed characteristic
breakdown before anonymisation: one summed count per configured label
under its output column name, then the flag cell holding the clear
marker. -/
def raw_row (recs : List Record) (char : String) (tpl : Template)
    (level : String) (labels : List (String × String)) (sfx : String)
    (inst : Int) : Row :=
  labels.map (fun lc =>
    (tpl.fmt "." ++ level ++ lc.2, Cell.num (breakdown_sum recs char inst lc.1)))
    ++ [(tpl.fmt ".FLAG" ++ level ++ sfx, Cell.str "")]

/-- The columns of a characteristic breakdown table: the renamed data
columns in configured label order, then the flag column. -/
def breakdown_cols (category level char : String) : List String :=
  match prefix_lookup category level, mapping_lookup char, suffix_lookup char with
  | some tpl, some labels, some sfx =>
    labels.map (fun lc => tpl.fmt "." ++ level ++ lc.2)
      ++ [tpl.fmt ".FLAG" ++ level ++ sfx]
  | _, _, _ => []

/-- The two columns of a totals breakdown table. -/
def totals_cols (category level : String) : List String :=
  match prefix_lookup category level with
  | some tpl =>
    [tpl.fmt "." ++ level ++ "TOTAL", tpl.fmt ".FLAG" ++ level ++ "TOTAL"]
  | none => []

/-- A breakdown table: its column names and one row per institution. -/
structure Table where
  cols : List String
  rows : List (Int × Row)
deriving DecidableEq, Repr

/-- The source definition `do_breakdown`: breakdown of a selection by one characteristic.
Group by (institution, characteristic) with the full categorical label
set, sum headcounts, pivot labels into columns, rename them, append the
flag column initialised to the clear marker, and anonymise every row.
The `year` argument is accepted, as in the source, and unused. -/
def do_breakdown (df : DataFrame) (year : Int) (category level char : String) :
    Except String Table :=
  match prefix_lookup category level, mapping_lookup char, suffix_lookup char with
  | some tpl, some labels, some sfx =>
    let flag_column := tpl.fmt ".FLAG" ++ level ++ sfx
    let recs := df.records
    match mapExcept (fun i =>
        (anonymise_row (raw_row recs char tpl level labels sfx i) flag_column).map
          (fun row => (i, row)))
        (institutions recs) with
    | Except.error e => Except.error e
    | Except.ok rows =>
      Except.ok { cols := breakdown_cols category level char, rows := rows }
  | _, _, _ => Except.error "KeyError"

/-- The totals block of `do_year`: group the selection by institution
only, sum headcounts into a single data column, append a flag column
initialised to the clear marker, and anonymise every row. -/
def do_totals (recs : List Record) (category level : String) :
    Except String Table :=
  match prefix_lookup category level with
  | some tpl =>
    let total_data := tpl.fmt "." ++ level ++ "TOTAL"
    let total_flag := tpl.fmt ".FLAG" ++ level ++ "TOTAL"
    match mapExcept (fun i =>
        (anonymise_row
          [(total_data, Cell.num (total_sum recs i)), (total_flag, Cell.str "")]
          total_flag).map (fun row => (i, row)))
        (institutions recs) with
    | Except.error e => Except.error e
    | Except.ok rows =>
      Except.ok { cols := totals_cols category level, rows := rows }
  | none => Except.error "KeyError"

/-- Column-wise concatenation of tables, aligned on the union of their
institution indexes; cells of a table missing an institution are NaN. -/
def concat (frames : List Table) : Table :=
  let idx := sortInts ((frames.flatMap (fun f => f.rows.map (fun r => r.1))).eraseDups)
  { cols := frames.flatMap (fun f => f.cols),
    rows := idx.map (fun i =>
      (i, frames.flatMap (fun f =>
        match f.rows.find? (fun r => r.1 == i) with
        | some r => r.2
        | none => f.cols.map (fun c => (c, Cell.nan))))) }

/-- The body of the per-level loop of `do_year`: select the subset for
the level, run the breakdown for every characteristic present in the
schema in mapping order, then the totals. -/
def do_level (df : DataFrame) (year : Int) (category level : String) :
    Except String (List Table) :=
  let selection := f_year_level df year level
  match mapExcept (fun char => do_breakdown selection year category level char)
      ((mapping.map (fun m => m.1)).filter (fun c => df.columns.contains c)) with
  | Except.error e => Except.error e
  | Except.ok charFrames =>
    match do_totals selection.records category level with
    | Except.error e => Except.error e
    | Except.ok totals => Except.ok (charFrames ++ [totals])

/-- The source definition `do_year`: for every configured level in order, run the per-level
breakdowns and concatenate all resulting frames column-wise. -/
def do_year (df : DataFrame) (year : Int) (category : String) :
    Except String Table :=
  match mapExcept (fun level => do_level df year category level)
      (map_levels.map (fun m => m.1)) with
  | Except.error e => Except.error e
  | Except.ok frames => Except.ok (concat (frames.flatMap id))

/-- The column order the specification prescribes for the per-year
table: level enumeration order; within a level, characteristic
enumeration order restricted to characteristics present in the schema;
then that level's totals columns. -/
def spec_year_columns (category : String) (schema : List String) : List String :=
  (map_levels.map (fun m => m.1)).flatMap (fun level =>
    ((mapping.map (fun m => m.1)).filter (fun c => schema.contains c)).flatMap
      (fun char => breakdown_cols category level char)
      ++ totals_cols category level)

/-- One institution's breakdown row after anonymisation when the
disclosure condition held: every data cell masked and the flag set to
the confidential marker. -/
def masked_row (tpl : Template) (level : String)
    (labels : List (String × String)) (sfx : String) : Row :=
  labels.map (fun lc => (tpl.fmt "." ++ level ++ lc.2, Cell.str "m"))
    ++ [(tpl.fmt ".FLAG" ++ level ++ sfx, Cell.str "c")]

/-- One institution's final breakdown row: masked when some summed count
is at most the threshold, raw otherwise. -/
def breakdown_row (recs : List Record) (char : String) (tpl : Template)
    (level : String) (labels : List (String × String)) (sfx : String)
    (inst : Int) : Row :=
  if labels.any (fun lc =>
      decide (breakdown_sum recs char inst lc.1 ≤ anonymisation_threshold)) then
    masked_row tpl level labels sfx
  else
    raw_row recs char tpl level labels sfx inst

/-- One institution's final totals row: masked when the total is at most
the threshold. -/
def totals_row (recs : List Record) (tpl : Template) (level : String)
    (inst : Int) : Row :=
  if total_sum recs inst ≤ anonymisation_threshold then
    [(tpl.fmt "." ++ level ++ "TOTAL", Cell.str "m"),
     (tpl.fmt ".FLAG" ++ level ++ "TOTAL", Cell.str "c")]
  else
    [(tpl.fmt "." ++ level ++ "TOTAL", Cell.num (total_sum recs inst)),
     (tpl.fmt ".FLAG" ++ level ++ "TOTAL", Cell.str "")]

/-- Decidable equality of embedded results, for concrete evaluation. -/
instance exceptDecEq {ε α : Type} [DecidableEq ε] [DecidableEq α] :
    DecidableEq (Except ε α) := fun x y =>
  match x, y with
  | Except.ok a, Except.ok b =>
    if h : a = b then isTrue (by rw [h])
    else isFalse (by intro hc; cases hc; exact h rfl)
  | Except.error e, Except.error f =>
    if h : e = f then isTrue (by rw [h])
    else isFalse (by intro hc; cases hc; exact h rfl)
  | Except.ok _, Except.error _ => isFalse (by intro hc; cases hc)
  | Except.error _, Except.ok _ => isFalse (by intro hc; cases hc)

/-- A concrete record: year 2021, institution 10, ISCED6, gender men,
headcount 10. -/
def exRec1 : Record where
  studijsko_leto := 2021
  sifra_zavoda := 10
  isced_vrednost := LevelVal.int 6
  charVal := fun c => if c == "SPOL" then "men" else ""
  st := some 10

/-- A concrete record: year 2021, institution 10, ISCED6, gender women,
headcount 20. -/
def exRec2 : Record where
  studijsko_leto := 2021
  sifra_zavoda := 10
  isced_vrednost := LevelVal.int 6
  charVal := fun c => if c == "SPOL" then "women" else ""
  st := some 20

/-- A concrete record with a null headcount. -/
def exRecNull : Record where
  studijsko_leto := 2021
  sifra_zavoda := 10
  isced_vrednost := LevelVal.int 6
  charVal := fun c => if c == "SPOL" then "men" else ""
  st := none

/-- A concrete two-record data frame. -/
def exDF : DataFrame where
  columns := ["STUDIJSKO_LETO", "SIFRA_ZAVODA", "SPOL", "ISCED_VREDNOST", "ST"]
  records := [exRec1, exRec2]

/-- The unmasked row the concrete data frame produces for institution 10. -/
def exRow : Row :=
  [("STUD.ISCED6MEN", Cell.num 10), ("STUD.ISCED6WOMEN", Cell.num 20),
   ("STUD.FLAGISCED6GEN", Cell.str "")]

/-- The breakdown table the concrete data frame produces. -/
def exTable : Table where
  cols := ["STUD.ISCED6MEN", "STUD.ISCED6WOMEN", "STUD.FLAGISCED6GEN"]
  rows := [(10, exRow)]

/-- The totals row the concrete data frame produces for institution 10. -/
def exTotalsRow : Row :=
  [("STUD.ISCED6TOTAL", Cell.num 30), ("STUD.FLAGISCED6TOTAL", Cell.str "")]

/-- The totals table the concrete data frame produces. -/
def exTotalsTable : Table where
  cols := ["STUD.ISCED6TOTAL", "STUD.FLAGISCED6TOTAL"]
  rows := [(10, exTotalsRow)]

/-- An already-masked breakdown row. -/
def exMaskedRow : Row :=
  [("STUD.ISCED6MEN", Cell.str "m"), ("STUD.ISCED6WOMEN", Cell.str "m"),
   ("STUD.FLAGISCED6GEN", Cell.str "c")]

section Lemmas

lemma mapExcept_ok {α β ε : Type} (f : α → Except ε β) (g : α → β)
    (l : List α) (h : ∀ a ∈ l, f a = Except.ok (g a)) :
    mapExcept f l = Except.ok (l.map g) := by
  induction l with
  | nil => rfl
  | cons a l ih =>
    have ha := h a (List.mem_cons_self a l)
    have hl := ih (fun b hb => h b (List.mem_cons_of_mem a hb))
    simp [mapExcept, ha, hl]

lemma mapExcept_congr {α β ε : Type} (f g : α → Except ε β) (l : List α)
    (h : ∀ a ∈ l, f a = g a) : mapExcept f l = mapExcept g l := by
  induction l with
  | nil => rfl
  | cons a l ih =>
    have ha := h a (List.mem_cons_self a l)
    have hl := ih (fun b hb => h b (List.mem_cons_of_mem a hb))
    simp [mapExcept, ha, hl]

lemma anyMapAux {α β : Type} (l : List α) (f : α → β) (p : β → Bool) :
    (l.map f).any p = l.any (fun a => p (f a)) := by
  induction l with
  | nil => rfl
  | cons a l ih => simp [List.any_cons, ih]

lemma mapExcept_cellLE_num (cells : List (String × Int)) (t : Int) :
    mapExcept (fun kc => cellLE kc.2 t)
      (cells.map (fun kc => (kc.1, Cell.num kc.2)))
      = Except.ok (cells.map (fun kc => decide (kc.2 ≤ t))) := by
  induction cells with
  | nil => rfl
  | cons c cs ih =>
    have hstep : cellLE (Cell.num c.2) t = Except.ok (decide (c.2 ≤ t)) := rfl
    simp only [List.map_cons, mapExcept, hstep, ih]

/-- Characterisation of the anonymiser on a fully numeric row whose data
column names all differ from the flag column name. -/
lemma anonymise_row_numeric (cells : List (String × Int)) (fc : String)
    (hfc : ∀ kc ∈ cells, kc.1 ≠ fc) :
    anonymise_row
        (cells.map (fun kc => (kc.1, Cell.num kc.2)) ++ [(fc, Cell.str "")]) fc
      = Except.ok
        (if cells.any (fun kc => decide (kc.2 ≤ anonymisation_threshold)) then
          cells.map (fun kc => (kc.1, Cell.str "m")) ++ [(fc, Cell.str "c")]
        else
          cells.map (fun kc => (kc.1, Cell.num kc.2)) ++ [(fc, Cell.str "")]) := by
  have hfilter :
      ((cells.map (fun kc => (kc.1, Cell.num kc.2)) ++ [(fc, Cell.str "")]).filter
        (fun kc => kc.1 != fc)) = cells.map (fun kc => (kc.1, Cell.num kc.2)) := by
    rw [List.filter_append]
    have h1 : (cells.map (fun kc => (kc.1, Cell.num kc.2))).filter
        (fun kc => kc.1 != fc) = cells.map (fun kc => (kc.1, Cell.num kc.2)) := by
      apply List.filter_eq_self.mpr
      intro x hx
      obtain ⟨kc, hkc, rfl⟩ := List.mem_map.mp hx
      simpa using hfc kc hkc
    have h2 : (([((fc : String), Cell.str "")]).filter
        (fun kc => kc.1 != fc)) = [] := by simp
    rw [h1, h2, List.append_nil]
  unfold anonymise_row
  rw [hfilter, mapExcept_cellLE_num]
  have hany : (cells.map (fun kc => decide (kc.2 ≤ anonymisation_threshold))).any id
      = cells.any (fun kc => decide (kc.2 ≤ anonymisation_threshold)) := by
    rw [anyMapAux]
    simp only [id_eq]
  simp only [hany]
  by_cases hc : cells.any (fun kc => decide (kc.2 ≤ anonymisation_threshold)) = true
  · rw [if_pos hc, if_pos hc]
    congr 1
    rw [List.map_append, List.map_map]
    unfold setCell
    rw [List.map_append]
    congr 1
    · rw [List.map_map]
      apply List.map_congr_left
      intro kc hkc
      have : (kc.1 == fc) = false := by
        simpa using hfc kc hkc
      simp [Function.comp, this]
    · simp
  · rw [if_neg hc, if_neg hc]

/-- The anonymiser applied to an institution's raw breakdown row. -/
lemma anonymise_raw_row (recs : List Record) (char : String) (tpl : Template)
    (level : String) (labels : List (String × String)) (sfx : String)
    (inst : Int)
    (hdist : ∀ lc ∈ labels,
      tpl.fmt "." ++ level ++ lc.2 ≠ tpl.fmt ".FLAG" ++ level ++ sfx) :
    anonymise_row (raw_row recs char tpl level labels sfx inst)
        (tpl.fmt ".FLAG" ++ level ++ sfx)
      = Except.ok (breakdown_row recs char tpl level labels sfx inst) := by
  have hshape : raw_row recs char tpl level labels sfx inst
      = (labels.map (fun lc =>
          (tpl.fmt "." ++ level ++ lc.2, breakdown_sum recs char inst lc.1))).map
          (fun kc => (kc.1, Cell.num kc.2))
        ++ [(tpl.fmt ".FLAG" ++ level ++ sfx, Cell.str "")] := by
    unfold raw_row
    rw [List.map_map]
    rfl
  rw [hshape]
  rw [anonymise_row_numeric _ _ (by
    intro kc hkc
    obtain ⟨lc, hlc, rfl⟩ := List.mem_map.mp hkc
    exact hdist lc hlc)]
  unfold breakdown_row masked_row raw_row
  simp only [anyMapAux, List.map_map, Function.comp_def]

/-- The anonymiser applied to an institution's raw totals row. -/
lemma anonymise_totals_row (recs : List Record) (tpl : Template)
    (level : String) (inst : Int)
    (hdist : tpl.fmt "." ++ level ++ "TOTAL" ≠ tpl.fmt ".FLAG" ++ level ++ "TOTAL") :
    anonymise_row
        [(tpl.fmt "." ++ level ++ "TOTAL", Cell.num (total_sum recs inst)),
         (tpl.fmt ".FLAG" ++ level ++ "TOTAL", Cell.str "")]
        (tpl.fmt ".FLAG" ++ level ++ "TOTAL")
      = Except.ok (totals_row recs tpl level inst) := by
  have h := anonymise_row_numeric
    [(tpl.fmt "." ++ level ++ "TOTAL", total_sum recs inst)]
    (tpl.fmt ".FLAG" ++ level ++ "TOTAL")
    (by intro kc hkc; simp at hkc; rw [hkc]; exact hdist)
  simp only [List.map_cons, List.map_nil, List.singleton_append,
    List.any_cons, List.any_nil, Bool.or_false] at h
  rw [h]
  unfold totals_row
  by_cases hc : total_sum recs inst ≤ anonymisation_threshold
  · simp [hc]
  · simp [hc]

lemma find?_eq_some_key {α : Type} (l : List (String × α)) (k : String)
    (p : String × α) (h : l.find? (fun q => q.1 == k) = some p) :
    p ∈ l ∧ p.1 = k := by
  refine ⟨List.mem_of_find?_eq_some h, ?_⟩
  have := List.find?_some h
  simpa using this

lemma prefix_lookup_inv (category level : String) (tpl : Template)
    (h : prefix_lookup category level = some tpl) :
    ∃ p ∈ prefix_table, p.1 = category
      ∧ ∃ lt ∈ p.2, lt.1 = level ∧ lt.2 = tpl := by
  unfold prefix_lookup at h
  cases hf : prefix_table.find? (fun p => p.1 == category) with
  | none => rw [hf] at h; exact absurd h (by simp)
  | some p =>
    obtain ⟨k, tbl⟩ := p
    rw [hf] at h
    obtain ⟨hmem, hkey⟩ := find?_eq_some_key _ _ _ hf
    simp only [Option.map_eq_some'] at h
    obtain ⟨lt, hlt, hlt2⟩ := h
    obtain ⟨hltmem, hltkey⟩ := find?_eq_some_key _ _ _ hlt
    exact ⟨(k, tbl), hmem, hkey, lt, hltmem, hltkey, hlt2⟩

lemma mapping_lookup_inv (char : String) (labels : List (String × String))
    (h : mapping_lookup char = some labels) :
    ∃ cm ∈ mapping, cm.1 = char ∧ cm.2 = labels := by
  unfold mapping_lookup at h
  simp only [Option.map_eq_some'] at h
  obtain ⟨cm, hcm, hcm2⟩ := h
  obtain ⟨hmem, hkey⟩ := find?_eq_some_key _ _ _ hcm
  exact ⟨cm, hmem, hkey, hcm2⟩

lemma suffix_lookup_inv (char : String) (sfx : String)
    (h : suffix_lookup char = some sfx) :
    ∃ fs ∈ flag_suffix, fs.1 = char ∧ fs.2 = sfx := by
  unfold suffix_lookup at h
  simp only [Option.map_eq_some'] at h
  obtain ⟨fs, hfs, hfs2⟩ := h
  obtain ⟨hmem, hkey⟩ := find?_eq_some_key _ _ _ hfs
  exact ⟨fs, hmem, hkey, hfs2⟩

/-- In every configured combination, a data column name never collides
with a flag column name. -/
lemma names_ok :
    ∀ p ∈ prefix_table, ∀ lt ∈ p.2, ∀ fs ∈ flag_suffix, ∀ cm ∈ mapping,
      ∀ lc ∈ cm.2,
        (Prod.snd lt).fmt "." ++ lt.1 ++ lc.2
          ≠ (Prod.snd lt).fmt ".FLAG" ++ lt.1 ++ fs.2 := by
  decide

/-- In every configured combination, the totals data column name differs
from the totals flag column name. -/
lemma totals_names_ok :
    ∀ p ∈ prefix_table, ∀ lt ∈ p.2,
      (Prod.snd lt).fmt "." ++ lt.1 ++ "TOTAL"
        ≠ (Prod.snd lt).fmt ".FLAG" ++ lt.1 ++ "TOTAL" := by
  decide

lemma breakdown_names_distinct (category level char : String) (tpl : Template)
    (labels : List (String × String)) (sfx : String)
    (hp : prefix_lookup category level = some tpl)
    (hm : mapping_lookup char = some labels)
    (hs : suffix_lookup char = some sfx) :
    ∀ lc ∈ labels,
      tpl.fmt "." ++ level ++ lc.2 ≠ tpl.fmt ".FLAG" ++ level ++ sfx := by
  obtain ⟨p, hpmem, _, lt, hltmem, hlt1, hlt2⟩ := prefix_lookup_inv _ _ _ hp
  obtain ⟨cm, hcmmem, _, hcm2⟩ := mapping_lookup_inv _ _ hm
  obtain ⟨fs, hfsmem, _, hfs2⟩ := suffix_lookup_inv _ _ hs
  subst hlt1; subst hlt2; subst hcm2; subst hfs2
  intro lc hlc
  exact names_ok p hpmem lt hltmem fs hfsmem cm hcmmem lc hlc

lemma totals_name_distinct (category level : String) (tpl : Template)
    (hp : prefix_lookup category level = some tpl) :
    tpl.fmt "." ++ level ++ "TOTAL" ≠ tpl.fmt ".FLAG" ++ level ++ "TOTAL" := by
  obtain ⟨p, hpmem, _, lt, hltmem, hlt1, hlt2⟩ := prefix_lookup_inv _ _ _ hp
  subst hlt1; subst hlt2
  exact totals_names_ok p hpmem lt hltmem

/-- Full characterisation of a successful characteristic breakdown: the
columns are the renamed data columns plus the flag column, and each
observed institution yields its anonymised row. -/
lemma do_breakdown_spec (df : DataFrame) (year : Int)
    (category level char : String) (tpl : Template)
    (labels : List (String × String)) (sfx : String)
    (hp : prefix_lookup category level = some tpl)
    (hm : mapping_lookup char = some labels)
    (hs : suffix_lookup char = some sfx) :
    do_breakdown df year category level char
      = Except.ok
        { cols := breakdown_cols category level char,
          rows := (institutions df.records).map (fun i =>
            (i, breakdown_row df.records char tpl level labels sfx i)) } := by
  have hdist := breakdown_names_distinct category level char tpl labels sfx hp hm hs
  have hrows := mapExcept_ok
    (fun i => (anonymise_row (raw_row df.records char tpl level labels sfx i)
        (tpl.fmt ".FLAG" ++ level ++ sfx)).map (fun row => ((i : Int), row)))
    (fun i => (i, breakdown_row df.records char tpl level labels sfx i))
    (institutions df.records)
    (fun i _ => by
      simp only [anonymise_raw_row df.records char tpl level labels sfx i hdist]
      rfl)
  unfold do_breakdown
  rw [hp, hm, hs]
  simp only [hrows]

/-- Full characterisation of a successful totals breakdown. -/
lemma do_totals_spec (recs : List Record) (category level : String)
    (tpl : Template) (hp : prefix_lookup category level = some tpl) :
    do_totals recs category level
      = Except.ok
        { cols := totals_cols category level,
          rows := (institutions recs).map (fun i =>
            (i, totals_row recs tpl level i)) } := by
  have hdist := totals_name_distinct category level tpl hp
  have hrows := mapExcept_ok
    (fun i => (anonymise_row
        [(tpl.fmt "." ++ level ++ "TOTAL", Cell.num (total_sum recs i)),
         (tpl.fmt ".FLAG" ++ level ++ "TOTAL", Cell.str "")]
        (tpl.fmt ".FLAG" ++ level ++ "TOTAL")).map (fun row => ((i : Int), row)))
    (fun i => (i, totals_row recs tpl level i))
    (institutions recs)
    (fun i _ => by
      simp only [anonymise_totals_row recs tpl level i hdist]
      rfl)
  unfold do_totals
  rw [hp]
  simp only [hrows]

lemma getCell_cons_eq (k : String) (v : Cell) (l : Row) :
    getCell ((k, v) :: l) k = some v := by
  simp [getCell, List.find?]

lemma getCell_cons_ne (a : String × Cell) (l : Row) (k : String)
    (h : a.1 ≠ k) : getCell (a :: l) k = getCell l k := by
  obtain ⟨k', v⟩ := a
  simp only at h
  have hb : (k' == k) = false := beq_eq_false_iff_ne.mpr h
  simp [getCell, List.find?, hb]

lemma getCell_append_last (l : Row) (fc : String) (v : Cell)
    (h : ∀ kc ∈ l, kc.1 ≠ fc) : getCell (l ++ [(fc, v)]) fc = some v := by
  induction l with
  | nil => simp [getCell, List.find?]
  | cons a as ih =>
    rw [List.cons_append, getCell_cons_ne a _ _ (h a (List.mem_cons_self a as))]
    exact ih (fun kc hkc => h kc (List.mem_cons_of_mem a hkc))

/-- The flag cell of a masked breakdown row holds the confidential marker. -/
lemma getCell_masked_row (tpl : Template) (level : String)
    (labels : List (String × String)) (sfx : String)
    (hdist : ∀ lc ∈ labels,
      tpl.fmt "." ++ level ++ lc.2 ≠ tpl.fmt ".FLAG" ++ level ++ sfx) :
    getCell (masked_row tpl level labels sfx) (tpl.fmt ".FLAG" ++ level ++ sfx)
      = some (Cell.str "c") := by
  unfold masked_row
  apply getCell_append_last
  intro kc hkc
  obtain ⟨lc, hlc, rfl⟩ := List.mem_map.mp hkc
  exact hdist lc hlc

/-- The flag cell of a raw breakdown row holds the clear marker. -/
lemma getCell_raw_row (recs : List Record) (char : String) (tpl : Template)
    (level : String) (labels : List (String × String)) (sfx : String)
    (inst : Int)
    (hdist : ∀ lc ∈ labels,
      tpl.fmt "." ++ level ++ lc.2 ≠ tpl.fmt ".FLAG" ++ level ++ sfx) :
    getCell (raw_row recs char tpl level labels sfx inst)
        (tpl.fmt ".FLAG" ++ level ++ sfx) = some (Cell.str "") := by
  unfold raw_row
  apply getCell_append_last
  intro kc hkc
  obtain ⟨lc, hlc, rfl⟩ := List.mem_map.mp hkc
  exact hdist lc hlc

/-- The raw label keys of every configured characteristic are distinct. -/
lemma mapping_keys_nodup :
    ∀ cm ∈ mapping, (cm.2.map (fun lc => lc.1)).Nodup := by
  decide

lemma anyCongrAux {α : Type} (l : List α) (p q : α → Bool)
    (h : ∀ a ∈ l, p a = q a) : l.any p = l.any q := by
  induction l with
  | nil => rfl
  | cons a l ih =>
    simp [List.any_cons, h a (List.mem_cons_self a l),
      ih (fun b hb => h b (List.mem_cons_of_mem a hb))]

lemma sum_map_add {α : Type} (l : List α) (f g : α → Int) :
    (l.map (fun a => f a + g a)).sum = (l.map f).sum + (l.map g).sum := by
  induction l with
  | nil => simp
  | cons a l ih =>
    simp only [List.map_cons, List.sum_cons, ih]
    ring

lemma sum_indicator (keys : List String) (v : String) (w : Int)
    (hmem : v ∈ keys) (hnd : keys.Nodup) :
    (keys.map (fun k => if v == k then w else 0)).sum = w := by
  induction keys with
  | nil => cases hmem
  | cons k ks ih =>
    rw [List.map_cons, List.sum_cons]
    rcases List.mem_cons.mp hmem with h | h
    · subst h
      rw [if_pos (by simp)]
      have hzero : ∀ k' ∈ ks, (if v == k' then w else (0 : Int)) = 0 := by
        intro k' hk'
        rw [if_neg]
        intro he
        rw [beq_iff_eq] at he
        subst he
        exact (List.nodup_cons.mp hnd).1 hk'
      rw [List.map_congr_left hzero]
      simp
    · have hne : (v == k) = false := by
        apply beq_eq_false_iff_ne.mpr
        intro he; subst he
        exact (List.nodup_cons.mp hnd).1 h
      rw [hne]
      simp only [Bool.false_eq_true, if_false]
      rw [ih h (List.nodup_cons.mp hnd).2]
      simp

lemma total_sum_cons (r : Record) (rs : List Record) (inst : Int) :
    total_sum (r :: rs) inst
      = (if r.sifra_zavoda == inst then r.st.getD 0 else 0)
        + total_sum rs inst := by
  unfold total_sum
  rw [List.filter_cons]
  by_cases hc : (r.sifra_zavoda == inst) = true
  · simp [hc]
  · simp only [Bool.not_eq_true] at hc
    simp [hc]

lemma breakdown_sum_cons (r : Record) (rs : List Record) (char : String)
    (inst : Int) (k : String) :
    breakdown_sum (r :: rs) char inst k
      = (if r.sifra_zavoda == inst && r.charVal char == k then r.st.getD 0 else 0)
        + breakdown_sum rs char inst k := by
  unfold breakdown_sum
  rw [List.filter_cons]
  by_cases hc : (r.sifra_zavoda == inst && r.charVal char == k) = true
  · simp [hc]
  · simp only [Bool.not_eq_true] at hc
    simp [hc]

/-- Partition of the per-institution total over a characteristic's label
domain: when every record's label lies in the (duplicate-free) domain,
the total equals the sum of the per-label sums. -/
lemma total_eq_sum_breakdown (recs : List Record) (char : String) (inst : Int)
    (keys : List String) (hnd : keys.Nodup)
    (hdom : ∀ r ∈ recs, r.charVal char ∈ keys) :
    total_sum recs inst
      = (keys.map (fun k => breakdown_sum recs char inst k)).sum := by
  induction recs with
  | nil =>
    unfold total_sum breakdown_sum
    simp
  | cons r rs ih =>
    have hr := hdom r (List.mem_cons_self r rs)
    have ihs := ih (fun r' h' => hdom r' (List.mem_cons_of_mem r h'))
    rw [total_sum_cons]
    have hmap : keys.map (fun k => breakdown_sum (r :: rs) char inst k)
        = keys.map (fun k =>
            (if r.sifra_zavoda == inst && r.charVal char == k then r.st.getD 0 else 0)
              + breakdown_sum rs char inst k) := by
      apply List.map_congr_left
      intro k _
      exact breakdown_sum_cons r rs char inst k
    rw [hmap, sum_map_add, ← ihs]
    congr 1
    by_cases hi : (r.sifra_zavoda == inst) = true
    · simp only [hi, Bool.true_and, if_true]
      exact (sum_indicator keys (r.charVal char) (r.st.getD 0) hr hnd).symm
    · simp only [Bool.not_eq_true] at hi
      simp [hi]

/-- The anonymiser raises on a row whose data cells are all the masked
marker (there is at least one data cell). -/
lemma anonymise_row_masked_raises (row : Row) (fc : String)
    (hne : ∃ kc ∈ row, kc.1 ≠ fc)
    (hmask : ∀ kc ∈ row, kc.1 ≠ fc → ∃ s, kc.2 = Cell.str s) :
    anonymise_row row fc = Except.error "TypeError" := by
  unfold anonymise_row
  cases hfl : row.filter (fun kc => kc.1 != fc) with
  | nil =>
    exfalso
    obtain ⟨kc, hkc, hkne⟩ := hne
    have : kc ∈ row.filter (fun kc => kc.1 != fc) :=
      List.mem_filter.mpr ⟨hkc, by simpa using hkne⟩
    rw [hfl] at this
    cases this
  | cons a as =>
    have ha : a ∈ row.filter (fun kc => kc.1 != fc) := by
      rw [hfl]; exact List.mem_cons_self a as
    have hamem := (List.mem_filter.mp ha).1
    have hane : a.1 ≠ fc := by
      have := (List.mem_filter.mp ha).2
      simpa using this
    obtain ⟨s, hs⟩ := hmask a hamem hane
    simp only [mapExcept, hs, cellLE]

/-- Every row of a successful characteristic breakdown is the
anonymised row of its institution. -/
lemma breakdown_row_of_mem (df : DataFrame) (year : Int)
    (category level char : String) (tpl : Template)
    (labels : List (String × String)) (sfx : String)
    (hp : prefix_lookup category level = some tpl)
    (hm : mapping_lookup char = some labels)
    (hs : suffix_lookup char = some sfx)
    (t : Table) (h : do_breakdown df year category level char = Except.ok t)
    (inst : Int) (row : Row) (hrow : (inst, row) ∈ t.rows) :
    row = breakdown_row df.records char tpl level labels sfx inst := by
  rw [do_breakdown_spec df year category level char tpl labels sfx hp hm hs] at h
  cases h
  obtain ⟨i, _, he⟩ := List.mem_map.mp hrow
  have h1 : i = inst := congrArg Prod.fst he
  have h2 : breakdown_row df.records char tpl level labels sfx i = row :=
    congrArg Prod.snd he
  subst h1
  exact h2.symm

/-- Every row of a successful totals breakdown is the anonymised totals
row of its institution. -/
lemma totals_row_of_mem (recs : List Record) (category level : String)
    (tpl : Template) (hp : prefix_lookup category level = some tpl)
    (t : Table) (h : do_totals recs category level = Except.ok t)
    (inst : Int) (row : Row) (hrow : (inst, row) ∈ t.rows) :
    row = totals_row recs tpl level inst := by
  rw [do_totals_spec recs category level tpl hp] at h
  cases h
  obtain ⟨i, _, he⟩ := List.mem_map.mp hrow
  have h1 : i = inst := congrArg Prod.fst he
  have h2 : totals_row recs tpl level i = row := congrArg Prod.snd he
  subst h1
  exact h2.symm

/-- The column labels of every final breakdown row, masked or not. -/
lemma breakdown_row_keys (recs : List Record) (char : String)
    (tpl : Template) (level : String) (labels : List (String × String))
    (sfx : String) (i : Int) :
    (breakdown_row recs char tpl level labels sfx i).map (fun kc => kc.1)
      = labels.map (fun lc => tpl.fmt "." ++ level ++ lc.2)
        ++ [tpl.fmt ".FLAG" ++ level ++ sfx] := by
  unfold breakdown_row masked_row raw_row
  by_cases hc : (labels.any (fun lc =>
      decide (breakdown_sum recs char i lc.1 ≤ anonymisation_threshold))) = true
  · rw [if_pos hc]
    simp [List.map_append, List.map_map, Function.comp_def]
  · rw [if_neg hc]
    simp [List.map_append, List.map_map, Function.comp_def]

/-- The configured data prefixes: the ISCED8 entries carry the
category-dependent override, every other level uses the category name
followed by a dot. -/
lemma prefix_value_ok :
    ∀ p ∈ prefix_table, ∀ lt ∈ p.2,
      (Prod.snd lt).fmt "." = (if lt.1 = "ISCED8"
        then (if p.1 = "STUD" then "RES.STUD" else "RES.GRAD")
        else p.1 ++ ".") := by
  decide

lemma mapping_lookup_of_mem (char : String)
    (h : char ∈ mapping.map (fun m => m.1)) :
    ∃ labels, mapping_lookup char = some labels := by
  unfold mapping_lookup
  cases hf : mapping.find? (fun p => p.1 == char) with
  | some p => exact ⟨p.2, rfl⟩
  | none =>
    exfalso
    obtain ⟨m, hm, hkey⟩ := List.mem_map.mp h
    have hthis := List.find?_eq_none.mp hf m hm
    rw [hkey] at hthis
    simp at hthis

lemma suffix_lookup_of_mem (char : String)
    (h : char ∈ mapping.map (fun m => m.1)) :
    ∃ sfx, suffix_lookup char = some sfx := by
  have h2 : char ∈ flag_suffix.map (fun m => m.1) := by
    have he : mapping.map (fun m => (m.1 : String))
        = flag_suffix.map (fun m => m.1) := by decide
    rwa [he] at h
  unfold suffix_lookup
  cases hf : flag_suffix.find? (fun p => p.1 == char) with
  | some p => exact ⟨p.2, rfl⟩
  | none =>
    exfalso
    obtain ⟨m, hm, hkey⟩ := List.mem_map.mp h2
    have hthis := List.find?_eq_none.mp hf m hm
    rw [hkey] at hthis
    simp at hthis

lemma mapExcept_tables (f : String → Except String Table)
    (g : String → List String) (l : List String)
    (h : ∀ a ∈ l, ∃ t, f a = Except.ok t ∧ t.cols = g a) :
    ∃ ts, mapExcept f l = Except.ok ts ∧ ts.map Table.cols = l.map g := by
  induction l with
  | nil => exact ⟨[], rfl, rfl⟩
  | cons a l ih =>
    obtain ⟨t, hft, hcols⟩ := h a (List.mem_cons_self a l)
    obtain ⟨ts, hts, hmap⟩ := ih (fun b hb => h b (List.mem_cons_of_mem a hb))
    refine ⟨t :: ts, ?_, ?_⟩
    · simp [mapExcept, hft, hts]
    · simp [List.map_cons, hmap, hcols]

lemma flatMapEqFlattenMap {α β : Type} (l : List α) (f : α → List β) :
    l.flatMap f = (l.map f).flatten := by
  induction l with
  | nil => rfl
  | cons a l ih => simp [List.flatMap_cons, List.map_cons, ih]

/-- One level's list of frames: every characteristic present in the
schema yields its breakdown table, then the totals table, and the
concatenation of their column lists is as configured. -/
lemma do_level_spec (df : DataFrame) (year : Int) (category level : String)
    (tpl : Template) (hp : prefix_lookup category level = some tpl) :
    ∃ frames, do_level df year category level = Except.ok frames
      ∧ frames.flatMap Table.cols
        = ((mapping.map (fun m => m.1)).filter
              (fun c => df.columns.contains c)).flatMap
            (fun char => breakdown_cols category level char)
          ++ totals_cols category level := by
  have hchars : ∀ char ∈ (mapping.map (fun m => m.1)).filter
      (fun c => df.columns.contains c),
      ∃ t, do_breakdown (f_year_level df year level) year category level char
          = Except.ok t
        ∧ t.cols = breakdown_cols category level char := by
    intro char hchar
    have hmem : char ∈ mapping.map (fun m => m.1) := (List.mem_filter.mp hchar).1
    obtain ⟨labels, hm⟩ := mapping_lookup_of_mem char hmem
    obtain ⟨sfx, hs⟩ := suffix_lookup_of_mem char hmem
    exact ⟨_, do_breakdown_spec _ year category level char tpl labels sfx hp hm hs,
      rfl⟩
  obtain ⟨ts, hts, hmap⟩ := mapExcept_tables
    (fun char => do_breakdown (f_year_level df year level) year category level char)
    (fun char => breakdown_cols category level char) _ hchars
  refine ⟨ts ++ [Table.mk (totals_cols category level)
    ((institutions (f_year_level df year level).records).map (fun i =>
      (i, totals_row (f_year_level df year level).records tpl level i)))],
    ?_, ?_⟩
  · simp only [do_level]
    rw [hts,
      do_totals_spec (f_year_level df year level).records category level tpl hp]
  · rw [List.flatMap_append]
    congr 1
    · rw [flatMapEqFlattenMap, flatMapEqFlattenMap, hmap]
    · simp

lemma mapExcept_frames (f : String → Except String (List Table))
    (g : String → List String) (l : List String)
    (h : ∀ a ∈ l, ∃ fr, f a = Except.ok fr ∧ fr.flatMap Table.cols = g a) :
    ∃ frs, mapExcept f l = Except.ok frs
      ∧ (frs.flatMap id).flatMap Table.cols = l.flatMap g := by
  induction l with
  | nil => exact ⟨[], rfl, rfl⟩
  | cons a l ih =>
    obtain ⟨fr, hfa, hcols⟩ := h a (List.mem_cons_self a l)
    obtain ⟨frs, hfrs, hmap⟩ := ih (fun b hb => h b (List.mem_cons_of_mem a hb))
    refine ⟨fr :: frs, ?_, ?_⟩
    · simp [mapExcept, hfa, hfrs]
    · simp only [List.flatMap_cons, List.flatMap_append, id_eq, hcols, hmap]

end Lemmas

section Claims

/-- C10: the characteristic breakdown is independent of its year
argument: for every record subset, category, level and characteristic,
running the breakdown with two different year values on the same subset
yields identical results (year filtering happens only in the selector,
never inside the breakdown). -/
theorem C10_breakdown_year_independent (df : DataFrame) (y1 y2 : Int)
    (category level char : String) :
    do_breakdown df y1 category level char
      = do_breakdown df y2 category level char := rfl

/-- C9: for every record set and every level name not among the four
configured levels, and likewise for every year outside the fixed
supported year set (when every record carries a supported year, as the
categorical dtype guarantees), the year/level selector returns the
empty subset rather than raising an error. -/
theorem C9_unknown_level_or_year_empty (df : DataFrame) (year : Int)
    (level : String)
    (h : level ∉ map_levels.map (fun m => m.1)
      ∨ (year ∉ supported_years
          ∧ ∀ r ∈ df.records, r.studijsko_leto ∈ supported_years)) :
    (f_year_level df year level).records = [] := by
  show df.records.filter (fun r =>
      r.studijsko_leto == year
        && some r.isced_vrednost == map_levels_get level) = []
  apply List.filter_eq_nil_iff.mpr
  intro r hr
  rcases h with h | ⟨hy, hall⟩
  · have hget : map_levels_get level = none := by
      unfold map_levels_get
      have hnone : map_levels.find? (fun p => p.1 == level) = none := by
        apply List.find?_eq_none.mpr
        intro p hp
        simp only [beq_iff_eq]
        intro he
        exact h (List.mem_map.mpr ⟨p, hp, he⟩)
      rw [hnone]
      rfl
    rw [hget]
    simp
  · have hne : r.studijsko_leto ≠ year := by
      intro he
      exact hy (he ▸ hall r hr)
    simp [hne]

/-- Witness for C9: an unconfigured level name yields the empty
selection on the concrete data frame. -/
theorem C9_witness :
    ("ISCED9" ∉ map_levels.map (fun m => m.1))
      ∧ (f_year_level exDF 2021 "ISCED9").records = [] :=
  ⟨by decide,
    C9_unknown_level_or_year_empty exDF 2021 "ISCED9" (Or.inl (by decide))⟩

/-- C2 counterexample: applying the anonymiser to an already-masked row
does not return the identical row (it raises instead of short-circuiting). -/
theorem C2_counterexample :
    anonymise_row exMaskedRow "STUD.FLAGISCED6GEN" ≠ Except.ok exMaskedRow := by
  have herr : anonymise_row exMaskedRow "STUD.FLAGISCED6GEN"
      = Except.error "TypeError" := rfl
  rw [herr]
  intro hcon
  cases hcon

/-- C2 (amended): for every row already masked by the anonymiser (all
data cells hold the masked marker, the flag cell the confidential
marker, and there is at least one data cell), applying the anonymiser
again does not return the identical row: the threshold comparison on
the non-numeric masked cells raises a TypeError, so the whole
application fails instead of short-circuiting. -/
theorem C2_masked_row_reapplication_raises (row : Row) (fc : String)
    (hne : ∃ kc ∈ row, kc.1 ≠ fc)
    (hmask : ∀ kc ∈ row, kc.1 ≠ fc → kc.2 = Cell.str "m")
    (hflag : getCell row fc = some (Cell.str "c")) :
    anonymise_row row fc = Except.error "TypeError"
      ∧ anonymise_row row fc ≠ Except.ok row := by
  have herr := anonymise_row_masked_raises row fc hne
    (fun kc h1 h2 => ⟨"m", hmask kc h1 h2⟩)
  refine ⟨herr, ?_⟩
  rw [herr]
  intro hcon
  cases hcon

/-- Witness for the amended C2 at the concrete masked row. -/
theorem C2_witness :
    ((∃ kc ∈ exMaskedRow, kc.1 ≠ "STUD.FLAGISCED6GEN")
        ∧ getCell exMaskedRow "STUD.FLAGISCED6GEN" = some (Cell.str "c"))
      ∧ anonymise_row exMaskedRow "STUD.FLAGISCED6GEN" = Except.error "TypeError"
      ∧ anonymise_row exMaskedRow "STUD.FLAGISCED6GEN" ≠ Except.ok exMaskedRow :=
  ⟨⟨by decide, by decide⟩,
    C2_masked_row_reapplication_raises exMaskedRow "STUD.FLAGISCED6GEN"
      (by decide) (by decide) (by decide)⟩

/-- C5: a record with a null headcount contributes nothing to any
summed count, and the breakdowns (hence the masking decision) are
unchanged when the null headcount is replaced by zero: nulls are
treated as zero for summation, and a row is masked only on the
resulting sums. -/
theorem C5_null_headcount_as_zero (r : Record) (recs : List Record)
    (hr : r.st = none) (cols : List String) (year : Int)
    (category level char : String) (inst : Int) (label : String) :
    breakdown_sum (r :: recs) char inst label
        = breakdown_sum recs char inst label
      ∧ total_sum (r :: recs) inst = total_sum recs inst
      ∧ do_breakdown ⟨cols, r :: recs⟩ year category level char
          = do_breakdown ⟨cols, { r with st := some 0 } :: recs⟩ year category level char
      ∧ do_totals (r :: recs) category level
          = do_totals ({ r with st := some 0 } :: recs) category level := by
  have hbs : ∀ ch : String, ∀ i : Int, ∀ k : String,
      breakdown_sum (r :: recs) ch i k
        = breakdown_sum ({ r with st := some 0 } :: recs) ch i k := by
    intro ch i k
    rw [breakdown_sum_cons r recs ch i k,
      breakdown_sum_cons { r with st := some 0 } recs ch i k, hr]
    rfl
  have htot : ∀ i : Int,
      total_sum (r :: recs) i = total_sum ({ r with st := some 0 } :: recs) i := by
    intro i
    rw [total_sum_cons r recs i, total_sum_cons { r with st := some 0 } recs i, hr]
    rfl
  refine ⟨?_, ?_, ?_, ?_⟩
  · rw [breakdown_sum_cons r recs char inst label, hr]
    simp
  · rw [total_sum_cons r recs inst, hr]
    simp
  · rcases hp : prefix_lookup category level with _ | tpl
    · simp only [do_breakdown, hp]
    rcases hm : mapping_lookup char with _ | labels
    · simp only [do_breakdown, hp, hm]
    rcases hs : suffix_lookup char with _ | sfx
    · simp only [do_breakdown, hp, hm, hs]
    rw [do_breakdown_spec ⟨cols, r :: recs⟩ year category level char tpl labels sfx hp hm hs,
      do_breakdown_spec ⟨cols, { r with st := some 0 } :: recs⟩ year category level char tpl labels sfx hp hm hs]
    have hrows : (institutions (r :: recs)).map (fun i =>
        (i, breakdown_row (r :: recs) char tpl level labels sfx i))
        = (institutions ({ r with st := some 0 } :: recs)).map (fun i =>
          (i, breakdown_row ({ r with st := some 0 } :: recs) char tpl level labels sfx i)) := by
      apply List.map_congr_left
      intro i _
      have hrow : breakdown_row (r :: recs) char tpl level labels sfx i
          = breakdown_row ({ r with st := some 0 } :: recs) char tpl level labels sfx i := by
        unfold breakdown_row raw_row
        have hcond : (labels.any (fun lc =>
            decide (breakdown_sum (r :: recs) char i lc.1 ≤ anonymisation_threshold)))
            = labels.any (fun lc =>
              decide (breakdown_sum ({ r with st := some 0 } :: recs) char i lc.1 ≤ anonymisation_threshold)) := by
          apply anyCongrAux
          intro lc _
          rw [hbs char i lc.1]
        have hmap : labels.map (fun lc =>
            (tpl.fmt "." ++ level ++ lc.2,
              Cell.num (breakdown_sum (r :: recs) char i lc.1)))
            = labels.map (fun lc =>
              (tpl.fmt "." ++ level ++ lc.2,
                Cell.num (breakdown_sum ({ r with st := some 0 } :: recs) char i lc.1))) := by
          apply List.map_congr_left
          intro lc _
          rw [hbs char i lc.1]
        rw [hcond, hmap]
      rw [hrow]
    simp only [hrows]
  · rcases hp : prefix_lookup category level with _ | tpl
    · simp only [do_totals, hp]
    rw [do_totals_spec (r :: recs) category level tpl hp,
      do_totals_spec ({ r with st := some 0 } :: recs) category level tpl hp]
    have hrows : (institutions (r :: recs)).map (fun i =>
        (i, totals_row (r :: recs) tpl level i))
        = (institutions ({ r with st := some 0 } :: recs)).map (fun i =>
          (i, totals_row ({ r with st := some 0 } :: recs) tpl level i)) := by
      apply List.map_congr_left
      intro i _
      unfold totals_row
      rw [htot i]
    simp only [hrows]

/-- Witness for C5 at a concrete record with a null headcount. -/
theorem C5_witness :
    exRecNull.st = none
      ∧ (breakdown_sum (exRecNull :: exDF.records) "SPOL" 10 "men"
            = breakdown_sum exDF.records "SPOL" 10 "men"
        ∧ total_sum (exRecNull :: exDF.records) 10 = total_sum exDF.records 10
        ∧ do_breakdown ⟨exDF.columns, exRecNull :: exDF.records⟩ 2021 "STUD" "ISCED6" "SPOL"
            = do_breakdown ⟨exDF.columns, { exRecNull with st := some 0 } :: exDF.records⟩ 2021 "STUD" "ISCED6" "SPOL"
        ∧ do_totals (exRecNull :: exDF.records) "STUD" "ISCED6"
            = do_totals ({ exRecNull with st := some 0 } :: exDF.records) "STUD" "ISCED6") :=
  ⟨rfl, C5_null_headcount_as_zero exRecNull exDF.records rfl exDF.columns 2021
    "STUD" "ISCED6" "SPOL" 10 "men"⟩

/-- C6: column naming is a pure function of level, category,
characteristic and raw label: the data column is the data prefix, the
level and the short code; the flag column substitutes the FLAG marker
into the template's separator position and appends the level and the
characteristic suffix (TOTAL for totals); the data prefix for ISCED8 is
the category-dependent override and every other level uses the category
name followed by a dot. -/
theorem C6_naming_deterministic (category level char : String)
    (tpl : Template) (labels : List (String × String)) (sfx : String)
    (hp : prefix_lookup category level = some tpl)
    (hm : mapping_lookup char = some labels)
    (hs : suffix_lookup char = some sfx) :
    (tpl.fmt "." = if level = "ISCED8"
        then (if category = "STUD" then "RES.STUD" else "RES.GRAD")
        else category ++ ".")
      ∧ tpl.fmt ".FLAG" = tpl.pre ++ ".FLAG" ++ tpl.post
      ∧ breakdown_cols category level char
          = labels.map (fun lc => tpl.fmt "." ++ level ++ lc.2)
            ++ [tpl.fmt ".FLAG" ++ level ++ sfx]
      ∧ totals_cols category level
          = [tpl.fmt "." ++ level ++ "TOTAL", tpl.fmt ".FLAG" ++ level ++ "TOTAL"]
      ∧ (∀ df year t, do_breakdown df year category level char = Except.ok t
          → t.cols = breakdown_cols category level char)
      ∧ (∀ recs t, do_totals recs category level = Except.ok t
          → t.cols = totals_cols category level) := by
  refine ⟨?_, rfl, ?_, ?_, ?_, ?_⟩
  · obtain ⟨p, hpmem, hpk, lt, hltmem, hlt1, hlt2⟩ := prefix_lookup_inv _ _ _ hp
    subst hpk; subst hlt1; subst hlt2
    exact prefix_value_ok p hpmem lt hltmem
  · unfold breakdown_cols
    rw [hp, hm, hs]
  · unfold totals_cols
    rw [hp]
  · intro df year t h
    rw [do_breakdown_spec df year category level char tpl labels sfx hp hm hs] at h
    cases h
    rfl
  · intro recs t h
    rw [do_totals_spec recs category level tpl hp] at h
    cases h
    rfl

/-- Witness for C6 at the ISCED8 override for the student category. -/
theorem C6_witness :
    prefix_lookup "STUD" "ISCED8" = some ⟨"RES", "STUD"⟩
      ∧ ((Template.mk "RES" "STUD").fmt "."
          = if "ISCED8" = "ISCED8"
            then (if "STUD" = "STUD" then "RES.STUD" else "RES.GRAD")
            else "STUD" ++ ".")
      ∧ (Template.mk "RES" "STUD").fmt ".FLAG" = "RES" ++ ".FLAG" ++ "STUD"
      ∧ breakdown_cols "STUD" "ISCED8" "SPOL"
          = [("men", "MEN"), ("women", "WOMEN")].map (fun lc =>
              (Template.mk "RES" "STUD").fmt "." ++ "ISCED8" ++ lc.2)
            ++ [(Template.mk "RES" "STUD").fmt ".FLAG" ++ "ISCED8" ++ "GEN"]
      ∧ totals_cols "STUD" "ISCED8"
          = [(Template.mk "RES" "STUD").fmt "." ++ "ISCED8" ++ "TOTAL",
             (Template.mk "RES" "STUD").fmt ".FLAG" ++ "ISCED8" ++ "TOTAL"]
      ∧ (∀ df year t, do_breakdown df year "STUD" "ISCED8" "SPOL" = Except.ok t
          → t.cols = breakdown_cols "STUD" "ISCED8" "SPOL")
      ∧ (∀ recs t, do_totals recs "STUD" "ISCED8" = Except.ok t
          → t.cols = totals_cols "STUD" "ISCED8") :=
  ⟨rfl, C6_naming_deterministic "STUD" "ISCED8" "SPOL" ⟨"RES", "STUD"⟩
    [("men", "MEN"), ("women", "WOMEN")] "GEN" rfl rfl rfl⟩

/-- C7: a (year, level) pair matching no records yields an empty
selection rather than an error, and both downstream breakdowns succeed
with zero institution rows. -/
theorem C7_empty_subset_ok (df : DataFrame) (year : Int) (level : String)
    (hno : ∀ r ∈ df.records,
      ¬(r.studijsko_leto = year ∧ some r.isced_vrednost = map_levels_get level))
    (category char : String) (tpl : Template)
    (labels : List (String × String)) (sfx : String)
    (hp : prefix_lookup category level = some tpl)
    (hm : mapping_lookup char = some labels)
    (hs : suffix_lookup char = some sfx) :
    (f_year_level df year level).records = []
      ∧ (∃ t, do_breakdown (f_year_level df year level) year category level char
          = Except.ok t ∧ t.rows = [])
      ∧ (∃ t, do_totals (f_year_level df year level).records category level
          = Except.ok t ∧ t.rows = []) := by
  have hempty : (f_year_level df year level).records = [] := by
    show df.records.filter (fun r =>
        r.studijsko_leto == year
          && some r.isced_vrednost == map_levels_get level) = []
    apply List.filter_eq_nil_iff.mpr
    intro r hr
    have := hno r hr
    simp only [Bool.and_eq_true, beq_iff_eq]
    exact this
  refine ⟨hempty, ?_, ?_⟩
  · refine ⟨_, do_breakdown_spec (f_year_level df year level) year category
      level char tpl labels sfx hp hm hs, ?_⟩
    rw [hempty]
    rfl
  · refine ⟨_, do_totals_spec (f_year_level df year level).records category
      level tpl hp, ?_⟩
    rw [hempty]
    rfl

/-- Witness for C7: the concrete data frame has no ISCED8 records. -/
theorem C7_witness :
    (∀ r ∈ exDF.records,
      ¬(r.studijsko_leto = 2021 ∧ some r.isced_vrednost = map_levels_get "ISCED8"))
      ∧ ((f_year_level exDF 2021 "ISCED8").records = []
        ∧ (∃ t, do_breakdown (f_year_level exDF 2021 "ISCED8") 2021 "STUD" "ISCED8" "SPOL"
            = Except.ok t ∧ t.rows = [])
        ∧ (∃ t, do_totals (f_year_level exDF 2021 "ISCED8").records "STUD" "ISCED8"
            = Except.ok t ∧ t.rows = [])) :=
  ⟨by decide,
    C7_empty_subset_ok exDF 2021 "ISCED8" (by decide) "STUD" "SPOL"
      ⟨"RES", "STUD"⟩ [("men", "MEN"), ("women", "WOMEN")] "GEN" rfl rfl rfl⟩

/-- C1: in every breakdown row produced for an institution — rows of
the characteristic breakdowns and rows of the totals breakdowns alike —
the flag cell holds the confidential marker exactly when some true
summed count of that row (zero-count cells included) is at most the
threshold; a confidentially flagged row is the fully masked row (every
data cell holds the masked marker and no numeric value remains), and a
clear-flagged row holds the true summed count in every data cell. -/
theorem C1_disclosure_invariant :
    (∀ (df : DataFrame) (year : Int) (category level char : String)
      (tpl : Template) (labels : List (String × String)) (sfx : String),
      prefix_lookup category level = some tpl
      → mapping_lookup char = some labels
      → suffix_lookup char = some sfx
      → ∀ t : Table, do_breakdown df year category level char = Except.ok t
      → ∀ (inst : Int) (row : Row), (inst, row) ∈ t.rows
      → (((getCell row (tpl.fmt ".FLAG" ++ level ++ sfx) = some (Cell.str "c"))
            ↔ ∃ lc ∈ labels,
                breakdown_sum df.records char inst lc.1 ≤ anonymisation_threshold)
          ∧ (getCell row (tpl.fmt ".FLAG" ++ level ++ sfx) = some (Cell.str "c")
              → row = masked_row tpl level labels sfx)
          ∧ (getCell row (tpl.fmt ".FLAG" ++ level ++ sfx) = some (Cell.str "")
              → row = raw_row df.records char tpl level labels sfx inst)
          ∧ (getCell row (tpl.fmt ".FLAG" ++ level ++ sfx) = some (Cell.str "c")
              ∨ getCell row (tpl.fmt ".FLAG" ++ level ++ sfx) = some (Cell.str ""))))
    ∧ (∀ (recs : List Record) (category level : String) (tpl : Template),
      prefix_lookup category level = some tpl
      → ∀ t : Table, do_totals recs category level = Except.ok t
      → ∀ (inst : Int) (row : Row), (inst, row) ∈ t.rows
      → (((getCell row (tpl.fmt ".FLAG" ++ level ++ "TOTAL") = some (Cell.str "c"))
            ↔ total_sum recs inst ≤ anonymisation_threshold)
          ∧ (getCell row (tpl.fmt ".FLAG" ++ level ++ "TOTAL") = some (Cell.str "c")
              → row = [(tpl.fmt "." ++ level ++ "TOTAL", Cell.str "m"),
                       (tpl.fmt ".FLAG" ++ level ++ "TOTAL", Cell.str "c")])
          ∧ (getCell row (tpl.fmt ".FLAG" ++ level ++ "TOTAL") = some (Cell.str "")
              → row = [(tpl.fmt "." ++ level ++ "TOTAL",
                         Cell.num (total_sum recs inst)),
                       (tpl.fmt ".FLAG" ++ level ++ "TOTAL", Cell.str "")])
          ∧ (getCell row (tpl.fmt ".FLAG" ++ level ++ "TOTAL") = some (Cell.str "c")
              ∨ getCell row (tpl.fmt ".FLAG" ++ level ++ "TOTAL")
                  = some (Cell.str "")))) := by
  constructor
  · intro df year category level char tpl labels sfx hp hm hs t h inst row hrow
    have hdist := breakdown_names_distinct category level char tpl labels sfx hp hm hs
    have hrw := breakdown_row_of_mem df year category level char tpl labels sfx
      hp hm hs t h inst row hrow
    subst hrw
    unfold breakdown_row
    by_cases hc : (labels.any (fun lc =>
        decide (breakdown_sum df.records char inst lc.1 ≤ anonymisation_threshold)))
        = true
    · rw [if_pos hc]
      rw [getCell_masked_row tpl level labels sfx hdist]
      refine ⟨⟨fun _ => ?_, fun _ => rfl⟩, fun _ => rfl,
        fun hcon => absurd hcon (by decide), Or.inl rfl⟩
      obtain ⟨lc, hlc, hple⟩ := List.any_eq_true.mp hc
      exact ⟨lc, hlc, of_decide_eq_true hple⟩
    · rw [if_neg hc]
      rw [getCell_raw_row df.records char tpl level labels sfx inst hdist]
      refine ⟨⟨fun hcon => absurd hcon (by decide), fun hex => ?_⟩,
        fun hcon => absurd hcon (by decide), fun _ => rfl, Or.inr rfl⟩
      obtain ⟨lc, hlc, hle⟩ := hex
      exact absurd (List.any_eq_true.mpr ⟨lc, hlc, decide_eq_true hle⟩) hc
  · intro recs category level tpl hp t h inst row hrow
    have hdistT := totals_name_distinct category level tpl hp
    have hrw := totals_row_of_mem recs category level tpl hp t h inst row hrow
    subst hrw
    unfold totals_row
    by_cases hc : total_sum recs inst ≤ anonymisation_threshold
    · rw [if_pos hc]
      have hflag : getCell
          [(tpl.fmt "." ++ level ++ "TOTAL", Cell.str "m"),
           (tpl.fmt ".FLAG" ++ level ++ "TOTAL", Cell.str "c")]
          (tpl.fmt ".FLAG" ++ level ++ "TOTAL") = some (Cell.str "c") := by
        rw [getCell_cons_ne _ _ _ hdistT]
        exact getCell_cons_eq _ _ _
      rw [hflag]
      exact ⟨⟨fun _ => hc, fun _ => rfl⟩, fun _ => rfl,
        fun hcon => absurd hcon (by decide), Or.inl rfl⟩
    · rw [if_neg hc]
      have hflag : getCell
          [(tpl.fmt "." ++ level ++ "TOTAL", Cell.num (total_sum recs inst)),
           (tpl.fmt ".FLAG" ++ level ++ "TOTAL", Cell.str "")]
          (tpl.fmt ".FLAG" ++ level ++ "TOTAL") = some (Cell.str "") := by
        rw [getCell_cons_ne _ _ _ hdistT]
        exact getCell_cons_eq _ _ _
      rw [hflag]
      exact ⟨⟨fun hcon => absurd hcon (by decide), fun hle => absurd hle hc⟩,
        fun hcon => absurd hcon (by decide), fun _ => rfl, Or.inr rfl⟩

/-- Witness for C1 at the concrete data frame: an unmasked
characteristic-breakdown row and an unmasked totals-breakdown row. -/
theorem C1_witness :
    (do_breakdown exDF 2021 "STUD" "ISCED6" "SPOL" = Except.ok exTable
      ∧ do_totals exDF.records "STUD" "ISCED6" = Except.ok exTotalsTable)
      ∧ (((getCell exRow ((Template.mk "STUD" "").fmt ".FLAG" ++ "ISCED6" ++ "GEN")
              = some (Cell.str "c"))
            ↔ ∃ lc ∈ [("men", "MEN"), ("women", "WOMEN")],
                breakdown_sum exDF.records "SPOL" 10 lc.1 ≤ anonymisation_threshold)
        ∧ (getCell exRow ((Template.mk "STUD" "").fmt ".FLAG" ++ "ISCED6" ++ "GEN")
              = some (Cell.str "c")
            → exRow = masked_row ⟨"STUD", ""⟩ "ISCED6"
                [("men", "MEN"), ("women", "WOMEN")] "GEN")
        ∧ (getCell exRow ((Template.mk "STUD" "").fmt ".FLAG" ++ "ISCED6" ++ "GEN")
              = some (Cell.str "")
            → exRow = raw_row exDF.records "SPOL" ⟨"STUD", ""⟩ "ISCED6"
                [("men", "MEN"), ("women", "WOMEN")] "GEN" 10)
        ∧ (getCell exRow ((Template.mk "STUD" "").fmt ".FLAG" ++ "ISCED6" ++ "GEN")
              = some (Cell.str "c")
          ∨ getCell exRow ((Template.mk "STUD" "").fmt ".FLAG" ++ "ISCED6" ++ "GEN")
              = some (Cell.str "")))
      ∧ (((getCell exTotalsRow
              ((Template.mk "STUD" "").fmt ".FLAG" ++ "ISCED6" ++ "TOTAL")
              = some (Cell.str "c"))
            ↔ total_sum exDF.records 10 ≤ anonymisation_threshold)
        ∧ (getCell exTotalsRow
              ((Template.mk "STUD" "").fmt ".FLAG" ++ "ISCED6" ++ "TOTAL")
              = some (Cell.str "c")
            → exTotalsRow
              = [((Template.mk "STUD" "").fmt "." ++ "ISCED6" ++ "TOTAL", Cell.str "m"),
                 ((Template.mk "STUD" "").fmt ".FLAG" ++ "ISCED6" ++ "TOTAL", Cell.str "c")])
        ∧ (getCell exTotalsRow
              ((Template.mk "STUD" "").fmt ".FLAG" ++ "ISCED6" ++ "TOTAL")
              = some (Cell.str "")
            → exTotalsRow
              = [((Template.mk "STUD" "").fmt "." ++ "ISCED6" ++ "TOTAL",
                   Cell.num (total_sum exDF.records 10)),
                 ((Template.mk "STUD" "").fmt ".FLAG" ++ "ISCED6" ++ "TOTAL", Cell.str "")])
        ∧ (getCell exTotalsRow
              ((Template.mk "STUD" "").fmt ".FLAG" ++ "ISCED6" ++ "TOTAL")
              = some (Cell.str "c")
          ∨ getCell exTotalsRow
              ((Template.mk "STUD" "").fmt ".FLAG" ++ "ISCED6" ++ "TOTAL")
              = some (Cell.str ""))) :=
  ⟨⟨by decide, by decide⟩,
    C1_disclosure_invariant.1 exDF 2021 "STUD" "ISCED6" "SPOL" ⟨"STUD", ""⟩
      [("men", "MEN"), ("women", "WOMEN")] "GEN" rfl rfl rfl exTable (by decide)
      10 exRow (by decide),
    C1_disclosure_invariant.2 exDF.records "STUD" "ISCED6" ⟨"STUD", ""⟩ rfl
      exTotalsTable (by decide) 10 exTotalsRow (by decide)⟩

/-- C3: every breakdown table has exactly one data column per configured
label plus the flag column (domain size plus one columns) regardless of
which labels occur in the subset; every row carries a cell under every
one of those columns, and a label absent from the subset contributes a
zero summed count rather than being dropped. -/
theorem C3_completeness (df : DataFrame) (year : Int)
    (category level char : String) (tpl : Template)
    (labels : List (String × String)) (sfx : String)
    (hp : prefix_lookup category level = some tpl)
    (hm : mapping_lookup char = some labels)
    (hs : suffix_lookup char = some sfx)
    (t : Table) (h : do_breakdown df year category level char = Except.ok t) :
    t.cols.length = labels.length + 1
      ∧ t.cols = labels.map (fun lc => tpl.fmt "." ++ level ++ lc.2)
          ++ [tpl.fmt ".FLAG" ++ level ++ sfx]
      ∧ (∀ ir ∈ t.rows, ir.2.map (fun kc => kc.1) = t.cols)
      ∧ (∀ inst : Int, ∀ lc ∈ labels,
          df.records.filter (fun r =>
            r.sifra_zavoda == inst && r.charVal char == lc.1) = []
          → breakdown_sum df.records char inst lc.1 = 0) := by
  rw [do_breakdown_spec df year category level char tpl labels sfx hp hm hs] at h
  cases h
  have hcols : breakdown_cols category level char
      = labels.map (fun lc => tpl.fmt "." ++ level ++ lc.2)
        ++ [tpl.fmt ".FLAG" ++ level ++ sfx] := by
    unfold breakdown_cols
    rw [hp, hm, hs]
  refine ⟨?_, hcols, ?_, ?_⟩
  · show (breakdown_cols category level char).length = labels.length + 1
    rw [hcols]
    simp
  · intro ir hir
    obtain ⟨i, _, he⟩ := List.mem_map.mp hir
    rw [← he]
    show (breakdown_row df.records char tpl level labels sfx i).map (fun kc => kc.1)
      = breakdown_cols category level char
    rw [breakdown_row_keys, hcols]
  · intro inst lc _ hfil
    unfold breakdown_sum
    rw [hfil]
    rfl

/-- Witness for C3 at the concrete data frame. -/
theorem C3_witness :
    do_breakdown exDF 2021 "STUD" "ISCED6" "SPOL" = Except.ok exTable
      ∧ (exTable.cols.length = ([("men", "MEN"), ("women", "WOMEN")] : List (String × String)).length + 1
        ∧ exTable.cols = [("men", "MEN"), ("women", "WOMEN")].map (fun lc =>
            (Template.mk "STUD" "").fmt "." ++ "ISCED6" ++ lc.2)
            ++ [(Template.mk "STUD" "").fmt ".FLAG" ++ "ISCED6" ++ "GEN"]
        ∧ (∀ ir ∈ exTable.rows, ir.2.map (fun kc => kc.1) = exTable.cols)
        ∧ (∀ inst : Int, ∀ lc ∈ ([("men", "MEN"), ("women", "WOMEN")] : List (String × String)),
            exDF.records.filter (fun r =>
              r.sifra_zavoda == inst && r.charVal "SPOL" == lc.1) = []
            → breakdown_sum exDF.records "SPOL" inst lc.1 = 0)) :=
  ⟨by decide,
    C3_completeness exDF 2021 "STUD" "ISCED6" "SPOL" ⟨"STUD", ""⟩
      [("men", "MEN"), ("women", "WOMEN")] "GEN" rfl rfl rfl exTable (by decide)⟩

/-- C4: when every record's label lies in the characteristic's domain
and neither the totals row nor the characteristic row of an institution
was masked, the characteristic row is the raw row of true summed
counts, the totals data cell holds the institution's total, and that
total equals the sum of the per-label summed counts. -/
theorem C4_conservation (df : DataFrame) (year : Int)
    (category level char : String) (tpl : Template)
    (labels : List (String × String)) (sfx : String)
    (hp : prefix_lookup category level = some tpl)
    (hm : mapping_lookup char = some labels)
    (hs : suffix_lookup char = some sfx)
    (hdom : ∀ r ∈ df.records, r.charVal char ∈ labels.map (fun lc => lc.1))
    (tb tt : Table)
    (hb : do_breakdown df year category level char = Except.ok tb)
    (ht : do_totals df.records category level = Except.ok tt)
    (inst : Int) (rowb rowt : Row)
    (hrb : (inst, rowb) ∈ tb.rows) (hrt : (inst, rowt) ∈ tt.rows)
    (hnb : getCell rowb (tpl.fmt ".FLAG" ++ level ++ sfx) ≠ some (Cell.str "c"))
    (hnt : getCell rowt (tpl.fmt ".FLAG" ++ level ++ "TOTAL") ≠ some (Cell.str "c")) :
    rowb = raw_row df.records char tpl level labels sfx inst
      ∧ getCell rowt (tpl.fmt "." ++ level ++ "TOTAL")
          = some (Cell.num (total_sum df.records inst))
      ∧ total_sum df.records inst
          = (labels.map (fun lc => breakdown_sum df.records char inst lc.1)).sum := by
  have hdist := breakdown_names_distinct category level char tpl labels sfx hp hm hs
  have hdistT := totals_name_distinct category level tpl hp
  have hrwb := breakdown_row_of_mem df year category level char tpl labels sfx
    hp hm hs tb hb inst rowb hrb
  have hrwt := totals_row_of_mem df.records category level tpl hp tt ht inst rowt hrt
  have hbraw : rowb = raw_row df.records char tpl level labels sfx inst := by
    rw [hrwb]
    unfold breakdown_row
    by_cases hc : (labels.any (fun lc =>
        decide (breakdown_sum df.records char inst lc.1 ≤ anonymisation_threshold)))
        = true
    · exfalso
      apply hnb
      rw [hrwb]
      unfold breakdown_row
      rw [if_pos hc]
      exact getCell_masked_row tpl level labels sfx hdist
    · rw [if_neg hc]
  have htraw : rowt = [(tpl.fmt "." ++ level ++ "TOTAL",
      Cell.num (total_sum df.records inst)),
      (tpl.fmt ".FLAG" ++ level ++ "TOTAL", Cell.str "")] := by
    rw [hrwt]
    unfold totals_row
    by_cases hc : total_sum df.records inst ≤ anonymisation_threshold
    · exfalso
      apply hnt
      rw [hrwt]
      unfold totals_row
      rw [if_pos hc]
      rw [getCell_cons_ne _ _ _ hdistT]
      exact getCell_cons_eq _ _ _
    · rw [if_neg hc]
  refine ⟨hbraw, ?_, ?_⟩
  · rw [htraw]
    exact getCell_cons_eq _ _ _
  · have hnd : (labels.map (fun lc => lc.1)).Nodup := by
      obtain ⟨cm, hcmmem, _, hcm2⟩ := mapping_lookup_inv _ _ hm
      subst hcm2
      exact mapping_keys_nodup cm hcmmem
    have := total_eq_sum_breakdown df.records char inst
      (labels.map (fun lc => lc.1)) hnd hdom
    rw [this, List.map_map]
    rfl

/-- Witness for C4 at the concrete data frame (all cells above the
threshold, so nothing is masked). -/
theorem C4_witness :
    ((∀ r ∈ exDF.records, r.charVal "SPOL"
        ∈ ([("men", "MEN"), ("women", "WOMEN")] : List (String × String)).map (fun lc => lc.1))
      ∧ do_breakdown exDF 2021 "STUD" "ISCED6" "SPOL" = Except.ok exTable
      ∧ do_totals exDF.records "STUD" "ISCED6" = Except.ok exTotalsTable)
      ∧ exRow = raw_row exDF.records "SPOL" ⟨"STUD", ""⟩ "ISCED6"
          [("men", "MEN"), ("women", "WOMEN")] "GEN" 10
      ∧ getCell exTotalsRow ((Template.mk "STUD" "").fmt "." ++ "ISCED6" ++ "TOTAL")
          = some (Cell.num (total_sum exDF.records 10))
      ∧ total_sum exDF.records 10
          = (([("men", "MEN"), ("women", "WOMEN")] : List (String × String)).map
              (fun lc => breakdown_sum exDF.records "SPOL" 10 lc.1)).sum :=
  ⟨⟨by decide, by decide, by decide⟩,
    C4_conservation exDF 2021 "STUD" "ISCED6" "SPOL" ⟨"STUD", ""⟩
      [("men", "MEN"), ("women", "WOMEN")] "GEN" rfl rfl rfl (by decide)
      exTable exTotalsTable (by decide) (by decide) 10 exRow exTotalsRow
      (by decide) (by decide) (by decide) (by decide)⟩

/-- C8: the per-year output succeeds for either category, and its
column order follows the fixed level enumeration order, within each
level the characteristic enumeration order restricted to the
characteristics present in the schema, followed by that level's totals
columns — the order in which the breakdowns were produced. -/
theorem C8_column_order (df : DataFrame) (year : Int) (category : String)
    (hcat : category = "STUD" ∨ category = "GRAD") :
    ∃ t, do_year df year category = Except.ok t
      ∧ t.cols = spec_year_columns category df.columns := by
  have hframes : ∀ level ∈ map_levels.map (fun m => m.1),
      ∃ fr, do_level df year category level = Except.ok fr
        ∧ fr.flatMap Table.cols
          = ((mapping.map (fun m => m.1)).filter
                (fun c => df.columns.contains c)).flatMap
              (fun char => breakdown_cols category level char)
            ++ totals_cols category level := by
    intro level hlevel
    have hfour : level = "ISCED6" ∨ level = "ISCED7"
        ∨ level = "ISCED7LONG" ∨ level = "ISCED8" := by
      simpa [map_levels] using hlevel
    have hp : ∃ tpl, prefix_lookup category level = some tpl := by
      rcases hcat with h | h <;> subst h <;>
        (rcases hfour with h | h | h | h <;> subst h <;> exact ⟨_, rfl⟩)
    obtain ⟨tpl, hp⟩ := hp
    exact do_level_spec df year category level tpl hp
  obtain ⟨frs, hfrs, hcols⟩ := mapExcept_frames _ _ _ hframes
  refine ⟨concat (frs.flatMap id), ?_, ?_⟩
  · unfold do_year
    rw [hfrs]
  · show (frs.flatMap id).flatMap (fun f => f.cols)
      = spec_year_columns category df.columns
    exact hcols

/-- Witness for C8 at the concrete data frame. -/
theorem C8_witness :
    ("STUD" = "STUD" ∨ "STUD" = "GRAD")
      ∧ ∃ t, do_year exDF 2021 "STUD" = Except.ok t
        ∧ t.cols = spec_year_columns "STUD" exDF.columns :=
  ⟨Or.inl rfl, C8_column_order exDF 2021 "STUD" (Or.inl rfl)⟩

end Claims

end EVS
